import Mathlib

/-!
Verification development for the model-deployment module
(`model_deployment.py`): a shallow embedding of its data model and
operations, with theorems checking the specification's claims.

Conventions of the embedding:
* Python strings are Lean `String`s; machine I/O clients (SageMaker, SSM,
  SQS) are records of functions returning `Except String _`, so a platform
  rejection is an `Except.error`.
* `re.sub` is embedded by a small backtracking regular-expression engine
  (`matchEnds`) that enumerates candidate match ends in the engine's
  preference order (greedy repetition first), exactly as Python's
  leftmost-greedy backtracking does.  Recursion is bounded by a fuel
  parameter kept structural so terms compute inside the kernel; every
  atom of the patterns used consumes at least one character, so the
  generous fuel supplied by the wrappers is never exhausted.
-/

namespace ModelDeployment

/-- Python `str.removesuffix`: drop `suf` from the end of `s` when it is a
suffix, otherwise return `s` unchanged. -/
def dropSuffixStr (s suf : String) : String :=
  if suf.data.length ≤ s.data.length ∧
      s.data.drop (s.data.length - suf.data.length) = suf.data then
    String.mk (s.data.take (s.data.length - suf.data.length))
  else s

/-- Python `str.removeprefix`: drop `pre` from the front of `s` when it
starts `s`, otherwise return `s` unchanged. -/
def dropPreStr (s pre : String) : String :=
  if s.data.take pre.data.length = pre.data then
    String.mk (s.data.drop pre.data.length)
  else s

/-- Does `needle` occur at the head of `hay`? -/
def atHead : List Char → List Char → Bool
  | [], _ => true
  | _ :: _, [] => false
  | n :: ns, h :: hs => n == h && atHead ns hs

/-- Python `needle in hay` on strings: substring containment. -/
def containsSub (needle : List Char) : List Char → Bool
  | [] => atHead needle []
  | h :: hs => atHead needle (h :: hs) || containsSub needle hs

/-- Regular expressions as used by the module: single-character classes,
concatenation, and greedy one-or-more repetition. -/
inductive RE where
  | cls (p : Char → Bool)
  | seq (a b : RE)
  | rep1 (a : RE)

/-- All ways the expression can match at the head of the input, returning
the remaining suffix after each candidate match, in backtracking preference
order (longer, greedier matches first).  `fuel` bounds recursion depth and
is kept structural so the function computes by iota reduction. -/
def matchEnds : Nat → RE → List Char → List (List Char)
  | 0, _, _ => []
  | _ + 1, RE.cls _, [] => []
  | _ + 1, RE.cls p, c :: rest => if p c then [rest] else []
  | fuel + 1, RE.seq a b, cs =>
      (matchEnds fuel a cs).flatMap (fun r => matchEnds fuel b r)
  | fuel + 1, RE.rep1 a, cs =>
      (matchEnds fuel a cs).flatMap
        (fun r => matchEnds fuel (RE.rep1 a) r ++ [r])

/-- The engine-preferred match at the current position, if any. -/
def reSearchEnd (fuel : Nat) (r : RE) (cs : List Char) : Option (List Char) :=
  (matchEnds fuel r cs).head?

/-- One pass of Python `re.sub(pattern, "", s)`: scan left to right, delete
the leftmost-greedy match wherever one starts, and resume scanning after
the deleted match. -/
def reSubAux (fuel : Nat) (r : RE) (cs : List Char) : List Char :=
  match fuel with
  | 0 => cs
  | fuel + 1 =>
    match reSearchEnd ((cs.length + 1) * 64) r cs, cs with
    | some _, [] => []
    | some rest, _ :: _ => reSubAux fuel r rest
    | none, [] => []
    | none, c :: cs => c :: reSubAux fuel r cs

/-- Python `re.sub(pattern, "", s)` for the module's patterns (every match
consumes at least one character, so the supplied fuel is ample). -/
def pyReSub (r : RE) (s : String) : String :=
  String.mk (reSubAux (s.data.length + 1) r s.data)

/-- Character class `\d` (ASCII digits, as in the module's inputs). -/
def isDigitC (c : Char) : Bool := c.isDigit

/-- Character class `[A-Za-z]`. -/
def isAlphaC (c : Char) : Bool := c.isAlpha

/-- Character class `[A-Za-z0-9]`. -/
def isAlnumC (c : Char) : Bool := c.isAlphanum

/-- A literal character as a regular expression. -/
def chC (c : Char) : RE := RE.cls (fun x => x == c)

/-- Concatenation of a nonempty list of regular expressions. -/
def seqL : List RE → RE
  | [] => RE.cls (fun _ => false)
  | [r] => r
  | r :: rs => RE.seq r (seqL rs)

/-- The pattern of line 263:
`\d{4}-\d{2}-\d{2}/[A-Za-z0-9]+/`. -/
def pat_training_job : RE :=
  seqL [RE.cls isDigitC, RE.cls isDigitC, RE.cls isDigitC, RE.cls isDigitC,
    chC '-', RE.cls isDigitC, RE.cls isDigitC,
    chC '-', RE.cls isDigitC, RE.cls isDigitC,
    chC '/', RE.rep1 (RE.cls isAlnumC), chC '/']

/-- The pattern of line 275:
`/[A-Za-z]+/(\d+(-\d+)+)/[A-Za-z]+/[A-Za-z]+/([A-Za-z0-9]+(_[A-Za-z0-9]+)+)\.[A-Za-z]+`
(the capture groups are irrelevant to substitution by the empty string). -/
def pat_bucket : RE :=
  seqL [chC '/', RE.rep1 (RE.cls isAlphaC),
    chC '/', RE.rep1 (RE.cls isDigitC),
    RE.rep1 (RE.seq (chC '-') (RE.rep1 (RE.cls isDigitC))),
    chC '/', RE.rep1 (RE.cls isAlphaC),
    chC '/', RE.rep1 (RE.cls isAlphaC),
    chC '/', RE.rep1 (RE.cls isAlnumC),
    RE.rep1 (RE.seq (chC '_') (RE.rep1 (RE.cls isAlnumC))),
    chC '.', RE.rep1 (RE.cls isAlphaC)]

/-- Lines 262-264: derive the training-job name from the model artifact's
object key by `re.sub` of `pat_training_job` with the empty string followed
by `removesuffix("/output/model.tar.gz")`. -/
def regex_training_job_algorithm (model_output_location : String) : String :=
  dropSuffixStr (pyReSub pat_training_job model_output_location)
    "/output/model.tar.gz"

/-! ## Wall-clock time and `strftime("%Y-%m-%d-%H-%M-%S", gmtime())` -/

/-- A broken-down UTC time as returned by `gmtime()` (the fields the format
string `%Y-%m-%d-%H-%M-%S` reads).  `gmtime` is a strictly monotone map
from epoch seconds to these tuples ordered lexicographically, so
chronological order of call instants is `Tm.chronoLt` below. -/
structure Tm where
  year : Nat
  mon : Nat
  mday : Nat
  hour : Nat
  minute : Nat
  sec : Nat
deriving DecidableEq

/-- Field bounds guaranteed by `gmtime` (loose bounds: what zero-padded
formatting needs). -/
def Tm.Valid (t : Tm) : Prop :=
  t.year < 10000 ∧ t.mon < 100 ∧ t.mday < 100 ∧ t.hour < 100 ∧
    t.minute < 100 ∧ t.sec < 100

instance (t : Tm) : Decidable t.Valid := by
  unfold Tm.Valid
  infer_instance

/-- Chronological order on broken-down UTC times: lexicographic on
(year, month, day, hour, minute, second). -/
def Tm.chronoLt (a b : Tm) : Prop :=
  a.year < b.year ∨ (a.year = b.year ∧
    (a.mon < b.mon ∨ (a.mon = b.mon ∧
      (a.mday < b.mday ∨ (a.mday = b.mday ∧
        (a.hour < b.hour ∨ (a.hour = b.hour ∧
          (a.minute < b.minute ∨ (a.minute = b.minute ∧
            a.sec < b.sec)))))))))

instance (a b : Tm) : Decidable (Tm.chronoLt a b) := by
  unfold Tm.chronoLt
  infer_instance

/-- The decimal digit character for `n < 10`. -/
def digitCh (n : Nat) : Char := Char.ofNat (48 + n)

/-- Zero-padded two-digit decimal rendering (`%m`, `%d`, `%H`, `%M`, `%S`). -/
def pad2 (n : Nat) : List Char := [digitCh (n / 10), digitCh (n % 10)]

/-- Zero-padded four-digit decimal rendering (`%Y`). -/
def pad4 (n : Nat) : List Char := pad2 (n / 100) ++ pad2 (n % 100)

/-- The characters of `strftime("%Y-%m-%d-%H-%M-%S", t)`. -/
def timestampChars (t : Tm) : List Char :=
  pad4 t.year ++ ('-' :: (pad2 t.mon ++ ('-' :: (pad2 t.mday ++
    ('-' :: (pad2 t.hour ++ ('-' :: (pad2 t.minute ++
      ('-' :: pad2 t.sec)))))))))

/-- `strftime("%Y-%m-%d-%H-%M-%S", gmtime())` with `gmtime() = t`. -/
def strftime_ts (t : Tm) : String := String.mk (timestampChars t)

/-! ## Data model: requests issued to the collaborators -/

/-- One `{Key, Value}` tag entry. -/
structure Tag where
  key : String
  value : String
deriving DecidableEq

/-- One entry of the `Containers` list of a create-model call. -/
structure ContainerSpec where
  image : String
  mode : String
  modelDataUrl : String
  environment : List (String × String)
deriving DecidableEq

/-- The parameters of a `create_model` call (lines 131-146). -/
structure CreateModelRequest where
  modelName : String
  containers : List ContainerSpec
  executionRoleArn : String
  tags : List Tag
deriving DecidableEq

/-- The `ServerlessConfig` block of a production variant. -/
structure ServerlessConfig where
  memorySizeInMB : Nat
  maxConcurrency : Nat
deriving DecidableEq

/-- One entry of the `ProductionVariants` list. -/
structure ProductionVariant where
  variantName : String
  modelName : String
  serverlessConfig : ServerlessConfig
deriving DecidableEq

/-- The `DataCaptureConfig` block (lines 197-209); `captureOptions` lists
the `CaptureMode` of each `CaptureOptions` entry. -/
structure DataCaptureConfigSpec where
  enableCapture : Bool
  initialSamplingPercentage : Nat
  destinationS3Uri : String
  captureOptions : List String
deriving DecidableEq

/-- The parameters of a `create_endpoint_config` call (lines 185-214);
`dataCaptureConfig` is `none` when the optional `DataCaptureConfig`
keyword is omitted from the request. -/
structure CreateEndpointConfigRequest where
  endpointConfigName : String
  productionVariants : List ProductionVariant
  dataCaptureConfig : Option DataCaptureConfigSpec
  tags : List Tag
deriving DecidableEq

/-- The parameters of a `create_endpoint` call (lines 236-243). -/
structure CreateEndpointRequest where
  endpointName : String
  endpointConfigName : String
  tags : List Tag
deriving DecidableEq

/-- The evaluation-queue message body (lines 308-312). -/
structure QueueMessage where
  endpointName : String
  testDataS3BucketName : String
  testDataS3Key : String
deriving DecidableEq

/-! ## Collaborator clients -/

/-- The SageMaker control-plane client: each operation either returns the
platform response or fails (a raised `ClientError`, as `Except.error`). -/
structure SageMakerClient where
  create_model : CreateModelRequest → Except String String
  create_endpoint_config : CreateEndpointConfigRequest → Except String String
  create_endpoint : CreateEndpointRequest → Except String String
  list_tags : String → Except String (List Tag)

/-- The SSM parameter-store client. -/
structure SsmClient where
  get_parameter : String → Except String String

/-- The SQS client. -/
structure SqsClient where
  get_queue_url : String → Except String String
  send_message : String → QueueMessage → Except String String

instance {ε α : Type} [DecidableEq ε] [DecidableEq α] :
    DecidableEq (Except ε α) := fun x y =>
  match x, y with
  | Except.ok a, Except.ok b => decidable_of_iff (a = b) (by simp)
  | Except.ok _, Except.error _ => isFalse (fun h => Except.noConfusion h)
  | Except.error _, Except.ok _ => isFalse (fun h => Except.noConfusion h)
  | Except.error e, Except.error f => decidable_of_iff (e = f) (by simp)

/-- One observable collaborator call with its outcome, in the order the
invocation issued it. -/
inductive Call where
  | createModel (req : CreateModelRequest) (res : Except String String)
  | getParameter (pname : String) (res : Except String String)
  | createEndpointConfig (req : CreateEndpointConfigRequest)
      (res : Except String String)
  | createEndpoint (req : CreateEndpointRequest) (res : Except String String)
  | listTags (arn : String) (res : Except String (List Tag))
  | getQueueUrl (qname : String) (res : Except String String)
  | sendMessage (queueUrl : String) (body : QueueMessage)
      (res : Except String String)
deriving DecidableEq

/-! ## The module's functions -/

/-- Lines 97-148, `create_sagemaker_model`: build the unique model name,
resolve the container image, issue `create_model` and return the name and
the returned ARN.  The pair's first component is the request issued, so
theorems can inspect it; `image_uris_retrieve` is the external image
registry lookup (`sagemaker.image_uris.retrieve`) and `now` the instant
`gmtime()` is called. -/
def create_sagemaker_model
    (name image model_data_url execution_role_arn image_version : String)
    (image_uris_retrieve : String → String → String → String)
    (now : Tm) (aws_region : String) (boto_client : SageMakerClient) :
    CreateModelRequest × Except String (String × String) :=
  let model_name := name ++ "-serverless-" ++ strftime_ts now
  let container := image_uris_retrieve image aws_region image_version
  let container_env_vars := [("SAGEMAKER_CONTAINER_LOG_LEVEL", "20")]
  let req : CreateModelRequest :=
    ⟨model_name,
      [⟨container, "SingleModel", model_data_url, container_env_vars⟩],
      execution_role_arn,
      [⟨"Project", "MLOps"⟩, ⟨"Region", aws_region⟩]⟩
  (req, (boto_client.create_model req).map (fun arn => (model_name, arn)))

/-- Lines 151-216, `create_endpoint_config`: build the unique config name
and issue `create_endpoint_config` with one serverless production variant,
the `DataCaptureConfig` block of lines 197-209, and the two fixed tags. -/
def create_endpoint_config
    (name model_name variant_name monitoring_bucket_name : String)
    (memory_size_in_mb max_concurrency : Nat)
    (now : Tm) (aws_region : String) (boto_client : SageMakerClient) :
    CreateEndpointConfigRequest × Except String (String × String) :=
  let endpoint_config_name := name ++ "-serverless-epc-" ++ strftime_ts now
  let capture_modes := ["Input", "Output"]
  let req : CreateEndpointConfigRequest :=
    ⟨endpoint_config_name,
      [⟨variant_name, model_name, ⟨memory_size_in_mb, max_concurrency⟩⟩],
      some ⟨true, 20,
        "s3://" ++ monitoring_bucket_name ++ "/" ++ model_name ++ "/",
        capture_modes⟩,
      [⟨"Project", "MLOps"⟩, ⟨"Region", aws_region⟩]⟩
  (req,
    (boto_client.create_endpoint_config req).map
      (fun arn => (endpoint_config_name, arn)))

/-- Lines 219-245, `create_serverless_endpoint`: build the unique endpoint
name and issue `create_endpoint`; note the source returns the pair
(endpoint ARN, endpoint name) in that order. -/
def create_serverless_endpoint
    (name endpoint_config_name : String)
    (now : Tm) (aws_region : String) (boto_client : SageMakerClient) :
    CreateEndpointRequest × Except String (String × String) :=
  let endpoint_name := name ++ "-serverless-ep-" ++ strftime_ts now
  let req : CreateEndpointRequest :=
    ⟨endpoint_name, endpoint_config_name,
      [⟨"Project", "MLOps"⟩, ⟨"Region", aws_region⟩]⟩
  (req, (boto_client.create_endpoint req).map (fun arn => (arn, endpoint_name)))

/-- Lines 316-327, `get_parameter_store_value`. -/
def get_parameter_store_value (name : String) (client : SsmClient) :
    Except String String :=
  client.get_parameter name

/-- The names bound at module level of `model_deployment.py` (its imports,
lines 1-10; its module globals, lines 13-33; and its function definitions).
CPython resolves each free variable of a function body against this set at
execution time; `re` is not in it. -/
def module_global_names : List String :=
  ["json", "logging", "os", "strftime", "gmtime", "Any", "boto3",
    "sagemaker", "S3Record", "aws_region", "sagemaker_client", "logger",
    "SERVERLESS_ENVIRONMENT", "ssm_model_monitoring_bucket_name",
    "ssm_model_queue_name", "sagemaker_role_arn", "lambda_handler",
    "create_sagemaker_model", "create_endpoint_config",
    "create_serverless_endpoint", "get_training_job_test_data_location",
    "trigger_model_evaluation", "get_parameter_store_value"]

/-- A Python exception surfaced by `get_training_job_test_data_location`. -/
inductive PyError where
  | nameError (n : String)
  | clientError (e : String)
deriving DecidableEq

/-- Lines 270-288: scan the tags for the first whose key contains the
substring `"Testing"`; on a hit return (value with `s3://` and the trailing
object path removed by `re.sub` of `pat_bucket`, the full tag value); with
no hit return two empty strings.  This is the data transformation the
statements denote once their names resolve. -/
def test_data_scan : List Tag → String × String
  | [] => ("", "")
  | tag :: rest =>
    if containsSub "Testing".data tag.key.data then
      let test_data_s3_key := tag.value
      let test_data_s3_bucket_name :=
        pyReSub pat_bucket (dropPreStr test_data_s3_key "s3://")
      (test_data_s3_bucket_name, test_data_s3_key)
    else test_data_scan rest

/-- Lines 248-288, `get_training_job_test_data_location`.  Its first
statement evaluates `re.sub`, which CPython resolves against the module's
global names; since `re` is not among them the function raises `NameError`
before the `list_tags` call, which is what the guard models.  The branch
under the guard is the semantics the statements would have with `re`
bound. -/
def get_training_job_test_data_location (model_output_location : String)
    (boto_client : SageMakerClient) : Except PyError (String × String) :=
  if "re" ∈ module_global_names then
    match boto_client.list_tags
        ("arn:aws:sagemaker:eu-west-2:827284457226:training-job/" ++
          regex_training_job_algorithm model_output_location) with
    | Except.error e => Except.error (PyError.clientError e)
    | Except.ok tags => Except.ok (test_data_scan tags)
  else Except.error (PyError.nameError "re")

/-- Lines 291-313, `trigger_model_evaluation`: resolve the queue URL and
send the evaluation message; returns the collaborator calls issued and the
outcome (a raised `ClientError` aborts after the failing call). -/
def trigger_model_evaluation
    (endpoint_name test_data_s3_bucket_name test_data_s3_key
      queue_name : String)
    (boto_client : SqsClient) : List Call × Except String Unit :=
  match boto_client.get_queue_url queue_name with
  | Except.error e =>
      ([Call.getQueueUrl queue_name (Except.error e)], Except.error e)
  | Except.ok queue_url =>
    let message_body : QueueMessage :=
      ⟨endpoint_name, test_data_s3_bucket_name, test_data_s3_key⟩
    match boto_client.send_message queue_url message_body with
    | Except.error e =>
        ([Call.getQueueUrl queue_name (Except.ok queue_url),
          Call.sendMessage queue_url message_body (Except.error e)],
          Except.error e)
    | Except.ok mid =>
        ([Call.getQueueUrl queue_name (Except.ok queue_url),
          Call.sendMessage queue_url message_body (Except.ok mid)],
          Except.ok ())

/-- Line 25: the parameter-store key of the model-monitoring bucket. -/
def ssm_model_monitoring_bucket_name (serverless_environment : String) :
    String :=
  "mlops-eu-west-2-" ++ serverless_environment ++ "-model-monitoring"

/-- One record of an S3 object-created notification: the three fields the
Notification Decoder extracts. -/
structure S3EventRecord where
  event_name : String
  bucket_name : String
  object_key : String
deriving DecidableEq

/-- An S3 notification payload: its list of records. -/
structure S3Event where
  records : List S3EventRecord
deriving DecidableEq

/-- Modelled from the spec: `models.S3Record` (the Notification Decoder,
spec section 4.1) lives in `models.py`, which is absent from the sources;
per the spec it extracts event name, bucket name and object key from the
first record, and fails with `MalformedEventError` when the payload has no
record. -/
def decode_s3_record (ev : S3Event) : Except String S3EventRecord :=
  match ev.records with
  | [] => Except.error "MalformedEventError"
  | r :: _ => Except.ok r

/-- Lines 36-94, `lambda_handler`: decode the notification, create model,
read the monitoring-bucket parameter, create endpoint config, create
endpoint, then message the evaluation queue with the endpoint name and
empty test-data fields (lines 85-90 pass `""` for bucket, key and queue
name).  Returns the collaborator calls issued, in order, and the outcome;
a raised `ClientError` aborts immediately after the failing call.  The
three `Tm` arguments are the instants of the three `gmtime()` calls. -/
def lambda_handler (event : S3Event)
    (image_uris_retrieve : String → String → String → String)
    (t1 t2 t3 : Tm)
    (aws_region sagemaker_role_arn serverless_environment : String)
    (sagemaker_client : SageMakerClient) (ssm_client : SsmClient)
    (sqs_client : SqsClient) : List Call × Except String S3Event :=
  match decode_s3_record event with
  | Except.error e => ([], Except.error e)
  | Except.ok s3_record =>
    let m := create_sagemaker_model "xgboost" "xgboost"
      ("s3://" ++ s3_record.bucket_name ++ "/" ++ s3_record.object_key)
      sagemaker_role_arn "latest" image_uris_retrieve t1 aws_region
      sagemaker_client
    match m with
    | (model_req, Except.error e) =>
        ([Call.createModel model_req (Except.error e)], Except.error e)
    | (model_req, Except.ok (model_name, model_arn)) =>
      let ssm_name := ssm_model_monitoring_bucket_name serverless_environment
      match get_parameter_store_value ssm_name ssm_client with
      | Except.error e =>
          ([Call.createModel model_req (Except.ok model_arn),
            Call.getParameter ssm_name (Except.error e)], Except.error e)
      | Except.ok monitoring_bucket_name =>
        let c := create_endpoint_config "xgboost" model_name "mlops"
          monitoring_bucket_name 4096 1 t2 aws_region sagemaker_client
        match c with
        | (config_req, Except.error e) =>
            ([Call.createModel model_req (Except.ok model_arn),
              Call.getParameter ssm_name (Except.ok monitoring_bucket_name),
              Call.createEndpointConfig config_req (Except.error e)],
              Except.error e)
        | (config_req, Except.ok (endpoint_config_name, endpoint_config)) =>
          let ep := create_serverless_endpoint "xgboost" endpoint_config_name
            t3 aws_region sagemaker_client
          match ep with
          | (endpoint_req, Except.error e) =>
              ([Call.createModel model_req (Except.ok model_arn),
                Call.getParameter ssm_name
                  (Except.ok monitoring_bucket_name),
                Call.createEndpointConfig config_req
                  (Except.ok endpoint_config),
                Call.createEndpoint endpoint_req (Except.error e)],
                Except.error e)
          | (endpoint_req,
              Except.ok (serverless_endpoint, serverless_endpoint_name)) =>
            let tr := trigger_model_evaluation serverless_endpoint_name
              "" "" "" sqs_client
            ([Call.createModel model_req (Except.ok model_arn),
              Call.getParameter ssm_name
                (Except.ok monitoring_bucket_name),
              Call.createEndpointConfig config_req
                (Except.ok endpoint_config),
              Call.createEndpoint endpoint_req
                (Except.ok serverless_endpoint)]
              ++ tr.1,
              tr.2.map (fun _ => event))

/-! ## Concrete fixtures (from `tests/example_responses.py`) -/

/-- A SageMaker client with fixed outcomes for each operation. -/
def test_sagemaker_client (mres cres eres : Except String String)
    (tres : Except String (List Tag)) : SageMakerClient :=
  ⟨fun _ => mres, fun _ => cres, fun _ => eres, fun _ => tres⟩

/-- An SSM client answering every lookup with `v`. -/
def ok_ssm_client (v : String) : SsmClient := ⟨fun _ => Except.ok v⟩

/-- An SQS client resolving every queue to `url` and accepting every
message. -/
def ok_sqs_client (url mid : String) : SqsClient :=
  ⟨fun _ => Except.ok url, fun _ _ => Except.ok mid⟩

/-- The example notification of `tests/example_responses.py`
(`example_event`). -/
def example_event : S3Event :=
  ⟨[⟨"ObjectCreated:Put", "example-bucket",
    "2024-02-23/output/xgboost-2024-02-23-18-04-06-024/output/model.tar.gz"⟩]⟩

/-- The tag list of `tests/example_responses.py`
(`example_sagemaker_list_tags`). -/
def example_tags : List Tag :=
  [⟨"string", "string"⟩, ⟨"string", "string"⟩,
    ⟨"Testing",
      "s3://bucket-name/automl/2024-04-22/training/testing/test_21_51_18.csv"⟩]

/-- Recognizer for create-model trace entries. -/
def isCreateModelCall : Call → Bool :=
  fun c => match c with
  | Call.createModel _ _ => true
  | _ => false

/-- Recognizer for create-endpoint-config trace entries. -/
def isCreateEndpointConfigCall : Call → Bool :=
  fun c => match c with
  | Call.createEndpointConfig _ _ => true
  | _ => false

/-- Recognizer for create-endpoint trace entries. -/
def isCreateEndpointCall : Call → Bool :=
  fun c => match c with
  | Call.createEndpoint _ _ => true
  | _ => false

/-- Recognizer for send-message trace entries. -/
def isSendMessageCall : Call → Bool :=
  fun c => match c with
  | Call.sendMessage _ _ _ => true
  | _ => false

/-- Recognizer for list-tags trace entries. -/
def isListTagsCall : Call → Bool :=
  fun c => match c with
  | Call.listTags _ _ => true
  | _ => false

/-- The ordered list of collaborator calls one invocation of
`lambda_handler` issues. -/
def handler_trace (event : S3Event)
    (image_uris_retrieve : String → String → String → String)
    (t1 t2 t3 : Tm)
    (aws_region sagemaker_role_arn serverless_environment : String)
    (sm : SageMakerClient) (ssm : SsmClient) (sqs : SqsClient) : List Call :=
  (lambda_handler event image_uris_retrieve t1 t2 t3 aws_region
    sagemaker_role_arn serverless_environment sm ssm sqs).1

/-! ## Helper lemmas: lexicographic order on rendered timestamps -/

theorem digit_lt_digit :
    ∀ x, x < 10 → ∀ y, y < 10 → x < y → digitCh x < digitCh y := by decide

theorem lex_cons_same {c : Char} {l₁ l₂ : List Char}
    (h : List.Lex (· < ·) l₁ l₂) : List.Lex (· < ·) (c :: l₁) (c :: l₂) :=
  List.Lex.cons h

theorem lex_append_both {l₁ l₂ t₁ t₂ : List Char}
    (hlen : l₁.length = l₂.length) (h : List.Lex (· < ·) l₁ l₂) :
    List.Lex (· < ·) (l₁ ++ t₁) (l₂ ++ t₂) := by
  induction h with
  | nil => simp at hlen
  | rel hr => exact List.Lex.rel hr
  | cons _ ih =>
      exact List.Lex.cons (ih (by simpa using hlen))

theorem pad2_lt {a b : Nat} (hb : b < 100) (h : a < b) :
    List.Lex (· < ·) (pad2 a) (pad2 b) := by
  rcases Nat.lt_or_ge (a / 10) (b / 10) with h10 | h10
  · exact List.Lex.rel (digit_lt_digit _ (by omega) _ (by omega) h10)
  · have he : a / 10 = b / 10 := by omega
    have h1 : a % 10 < b % 10 := by omega
    rw [pad2, pad2, he]
    exact List.Lex.cons
      (List.Lex.rel (digit_lt_digit _ (by omega) _ (by omega) h1))

theorem pad4_lt {a b : Nat} (hb : b < 10000) (h : a < b) :
    List.Lex (· < ·) (pad4 a) (pad4 b) := by
  rcases Nat.lt_or_ge (a / 100) (b / 100) with h100 | h100
  · exact lex_append_both rfl (pad2_lt (by omega) h100)
  · have he : a / 100 = b / 100 := by omega
    have h1 : a % 100 < b % 100 := by omega
    rw [pad4, pad4, he]
    exact List.Lex.append_left _ (pad2_lt (by omega) h1) _

theorem strftime_ts_strict_mono {t1 t2 : Tm} (_v1 : t1.Valid) (v2 : t2.Valid)
    (h : Tm.chronoLt t1 t2) : strftime_ts t1 < strftime_ts t2 := by
  obtain ⟨hy2, hmo2, hd2, hh2, hmi2, hs2⟩ := v2
  rw [String.lt_iff_toList_lt]
  show List.Lex (· < ·) (timestampChars t1) (timestampChars t2)
  unfold timestampChars
  rcases h with hy | ⟨hy, h⟩
  · exact lex_append_both rfl (pad4_lt hy2 hy)
  rw [hy]
  refine List.Lex.append_left _ ?_ _
  rcases h with hmo | ⟨hmo, h⟩
  · exact lex_cons_same (lex_append_both rfl (pad2_lt hmo2 hmo))
  rw [hmo]
  refine lex_cons_same (List.Lex.append_left _ ?_ _)
  rcases h with hd | ⟨hd, h⟩
  · exact lex_cons_same (lex_append_both rfl (pad2_lt hd2 hd))
  rw [hd]
  refine lex_cons_same (List.Lex.append_left _ ?_ _)
  rcases h with hh | ⟨hh, h⟩
  · exact lex_cons_same (lex_append_both rfl (pad2_lt hh2 hh))
  rw [hh]
  refine lex_cons_same (List.Lex.append_left _ ?_ _)
  rcases h with hmi | ⟨hmi, hs⟩
  · exact lex_cons_same (lex_append_both rfl (pad2_lt hmi2 hmi))
  rw [hmi]
  exact lex_cons_same (List.Lex.append_left _ (lex_cons_same (pad2_lt hs2 hs)) _)

/-! ## Claim theorems -/

/-- C1: the claim says the create-endpoint-config request omits any
data-capture configuration.  It is false of the code: every request built
by `create_endpoint_config` attaches the `DataCaptureConfig` block of
lines 197-209 (capture enabled, 20% sampling, monitoring destination,
Input and Output capture options).  This theorem evaluates the code: the
request's data-capture field is `some` of exactly that block, never
`none`. -/
theorem c1_data_capture_always_attached :
    ∀ (name model_name variant_name monitoring_bucket_name : String)
      (memory_size_in_mb max_concurrency : Nat) (t : Tm) (region : String)
      (client : SageMakerClient),
      (create_endpoint_config name model_name variant_name
          monitoring_bucket_name memory_size_in_mb max_concurrency t region
          client).1.dataCaptureConfig
        = some ⟨true, 20,
            "s3://" ++ monitoring_bucket_name ++ "/" ++ model_name ++ "/",
            ["Input", "Output"]⟩ := by
  intros
  rfl

/-- C4: the training-job identifier derivation of lines 262-264 — `re.sub`
deleting the `\d\x7b4\x7d-\d\x7b2\x7d-\d\x7b2\x7d/[A-Za-z0-9]+/` prefix
followed by `removesuffix("/output/model.tar.gz")` — maps the artifact key
`2024-04-22/output/xgboost-2024-04-22-20-51-18-610/output/model.tar.gz`
to the identifier `xgboost-2024-04-22-20-51-18-610`. -/
theorem c4_training_job_id_derivation :
    regex_training_job_algorithm
      "2024-04-22/output/xgboost-2024-04-22-20-51-18-610/output/model.tar.gz"
      = "xgboost-2024-04-22-20-51-18-610" := by decide

/-- C6: for every input and every client,
`get_training_job_test_data_location` fails with `NameError` on `re`
(the module never imports `re`, so its first statement cannot resolve the
name), and in particular never returns a (bucket, key) pair and never
reaches the tag-lookup call. -/
theorem c6_missing_re_import_nameerror :
    ∀ (model_output_location : String) (client : SageMakerClient),
      get_training_job_test_data_location model_output_location client
        = Except.error (PyError.nameError "re") := by
  intro loc client
  unfold get_training_job_test_data_location
  rw [if_neg (by decide)]

/-- C3: on the repository's own fixture tags (a `Testing` tag holding
`s3://bucket-name/automl/2024-04-22/training/testing/test_21_51_18.csv`),
the tag-scan of lines 270-284 yields bucket `bucket-name` but keeps the
FULL tag value — scheme and bucket included — as the key, contradicting
the claim's (and the repository test's) expected key
`automl/2024-04-22/training/testing/test_21_51_18.csv`; moreover the
enclosing function itself only raises `NameError`. -/
theorem c3_key_keeps_scheme_and_bucket :
    test_data_scan example_tags
      = ("bucket-name",
        "s3://bucket-name/automl/2024-04-22/training/testing/test_21_51_18.csv")
    ∧ get_training_job_test_data_location
        "2024-04-22/output/xgboost-2024-04-22-20-51-18-610/output/model.tar.gz"
        (test_sagemaker_client (Except.ok "m") (Except.ok "c") (Except.ok "e")
          (Except.ok example_tags))
        = Except.error (PyError.nameError "re") :=
  ⟨by decide, by decide⟩

/-- C7: the claim says that with no tag whose key contains `Testing` the
function returns empty bucket and key without raising.  The tag-scan of
lines 270-288 indeed yields `("", "")` on such tags, but the function as
written raises `NameError` on its first statement instead of returning,
so the no-raise part is false of the code. -/
theorem c7_no_testing_tag_behaviour :
    test_data_scan [⟨"Project", "MLOps"⟩, ⟨"Region", "eu-west-2"⟩] = ("", "")
    ∧ get_training_job_test_data_location
        "2024-04-22/output/job0/output/model.tar.gz"
        (test_sagemaker_client (Except.ok "m") (Except.ok "c") (Except.ok "e")
          (Except.ok [⟨"Project", "MLOps"⟩, ⟨"Region", "eu-west-2"⟩]))
        = Except.error (PyError.nameError "re") :=
  ⟨by decide, by decide⟩

/-- C10: every one of the three create requests carries exactly the two
tags `\x7bProject: MLOps\x7d` and `\x7bRegion: <configured region>\x7d`,
in that order, whatever the other arguments. -/
theorem c10_fixed_tags_on_all_creates :
    ∀ (region : String),
      (∀ (name image url role ver : String)
          (iur : String → String → String → String) (t : Tm)
          (client : SageMakerClient),
          (create_sagemaker_model name image url role ver iur t region
              client).1.tags
            = [⟨"Project", "MLOps"⟩, ⟨"Region", region⟩]) ∧
      (∀ (name mn vn mb : String) (msz mc : Nat) (t : Tm)
          (client : SageMakerClient),
          (create_endpoint_config name mn vn mb msz mc t region
              client).1.tags
            = [⟨"Project", "MLOps"⟩, ⟨"Region", region⟩]) ∧
      (∀ (name ecn : String) (t : Tm) (client : SageMakerClient),
          (create_serverless_endpoint name ecn t region client).1.tags
            = [⟨"Project", "MLOps"⟩, ⟨"Region", region⟩]) := by
  intro region
  exact ⟨fun _ _ _ _ _ _ _ _ => rfl, fun _ _ _ _ _ _ _ _ => rfl,
    fun _ _ _ _ => rfl⟩

/-- C9: the three generated names are exactly
`<prefix>-serverless-<ts>`, `<prefix>-serverless-epc-<ts>` and
`<prefix>-serverless-ep-<ts>` (so each begins with `<prefix>-serverless`),
where `<ts>` is the seconds-resolution `%Y-%m-%d-%H-%M-%S` rendering of
the call instant; and for two calls at strictly increasing wall-clock
times the embedded timestamps are strictly increasing in lexicographic
string order. -/
theorem c9_generated_names_timestamped :
    (∀ (name image url role ver : String)
        (iur : String → String → String → String) (t : Tm)
        (region : String) (client : SageMakerClient),
        (create_sagemaker_model name image url role ver iur t region
            client).1.modelName = name ++ "-serverless-" ++ strftime_ts t) ∧
    (∀ (name mn vn mb : String) (msz mc : Nat) (t : Tm) (region : String)
        (client : SageMakerClient),
        (create_endpoint_config name mn vn mb msz mc t region
            client).1.endpointConfigName
          = name ++ "-serverless-epc-" ++ strftime_ts t) ∧
    (∀ (name ecn : String) (t : Tm) (region : String)
        (client : SageMakerClient),
        (create_serverless_endpoint name ecn t region client).1.endpointName
          = name ++ "-serverless-ep-" ++ strftime_ts t) ∧
    (∀ t1 t2 : Tm, t1.Valid → t2.Valid → Tm.chronoLt t1 t2 →
        strftime_ts t1 < strftime_ts t2) :=
  ⟨fun _ _ _ _ _ _ _ _ _ => rfl, fun _ _ _ _ _ _ _ _ _ => rfl,
    fun _ _ _ _ _ => rfl,
    fun _ _ v1 v2 h => strftime_ts_strict_mono v1 v2 h⟩

/-- Witness for C9 at two concrete instants one second apart. -/
theorem c9_witness :
    Tm.Valid ⟨2024, 4, 22, 20, 51, 18⟩ ∧ Tm.Valid ⟨2024, 4, 22, 20, 51, 19⟩ ∧
    Tm.chronoLt ⟨2024, 4, 22, 20, 51, 18⟩ ⟨2024, 4, 22, 20, 51, 19⟩ ∧
    strftime_ts ⟨2024, 4, 22, 20, 51, 18⟩ < strftime_ts ⟨2024, 4, 22, 20, 51, 19⟩ ∧
    (create_sagemaker_model "xgboost" "xgboost" "u" "r" "latest"
        (fun _ _ _ => "img") ⟨2024, 4, 22, 20, 51, 18⟩ "eu-west-2"
        (test_sagemaker_client (Except.ok "m") (Except.ok "c")
          (Except.ok "e") (Except.ok []))).1.modelName
      = "xgboost-serverless-2024-04-22-20-51-18" :=
  ⟨by decide, by decide, by decide,
    c9_generated_names_timestamped.2.2.2 _ _ (by decide) (by decide)
      (by decide),
    by decide⟩

/-- C2: the claim says the invocation runs the Training-Job Locator
between provisioning and notification and sends the tag-derived test-data
bucket and key.  It is false of the code: on the example notification,
with every collaborator call succeeding, the trace contains no tag-lookup
call at all, and the single queue message carries empty strings for both
test-data fields (lines 85-90 pass literal empty strings and never call
`get_training_job_test_data_location`). -/
theorem c2_locator_never_run_and_empty_test_data :
    ∀ (iur : String → String → String → String) (t1 t2 t3 : Tm)
      (region role env marn carn earn pval url mid : String),
      let tr := handler_trace example_event iur t1 t2 t3 region role env
        (test_sagemaker_client (Except.ok marn) (Except.ok carn)
          (Except.ok earn) (Except.ok []))
        (ok_ssm_client pval) (ok_sqs_client url mid)
      tr.countP isListTagsCall = 0 ∧
      tr.countP isSendMessageCall = 1 ∧
      Call.sendMessage url
          ⟨"xgboost-serverless-ep-" ++ strftime_ts t3, "", ""⟩
          (Except.ok mid) ∈ tr := by
  intro iur t1 t2 t3 region role env marn carn earn pval url mid
  refine ⟨rfl, rfl, ?_⟩
  exact List.mem_append_right _
    (List.mem_cons_of_mem _ (List.mem_cons_self _ _))

/-- C8: on the example notification, with every collaborator call
succeeding, one invocation issues exactly one create-model call, one
create-endpoint-config call, one create-endpoint call and one
evaluation-queue message, and the message's `endpointName` equals the
endpoint name of the create-endpoint request. -/
theorem c8_exactly_one_of_each_call :
    ∀ (iur : String → String → String → String) (t1 t2 t3 : Tm)
      (region role env marn carn earn pval url mid : String),
      let tr := handler_trace example_event iur t1 t2 t3 region role env
        (test_sagemaker_client (Except.ok marn) (Except.ok carn)
          (Except.ok earn) (Except.ok []))
        (ok_ssm_client pval) (ok_sqs_client url mid)
      tr.countP isCreateModelCall = 1 ∧
      tr.countP isCreateEndpointConfigCall = 1 ∧
      tr.countP isCreateEndpointCall = 1 ∧
      tr.countP isSendMessageCall = 1 ∧
      ∃ ereq eres u body bres,
        Call.createEndpoint ereq eres ∈ tr ∧
        Call.sendMessage u body bres ∈ tr ∧
        body.endpointName = ereq.endpointName := by
  intro iur t1 t2 t3 region role env marn carn earn pval url mid
  refine ⟨rfl, rfl, rfl, rfl,
    ⟨"xgboost-serverless-ep-" ++ strftime_ts t3,
      "xgboost-serverless-epc-" ++ strftime_ts t2,
      [⟨"Project", "MLOps"⟩, ⟨"Region", region⟩]⟩,
    Except.ok earn, url,
    ⟨"xgboost-serverless-ep-" ++ strftime_ts t3, "", ""⟩,
    Except.ok mid, ?_, ?_, rfl⟩
  · exact List.mem_append_left _
      (List.mem_cons_of_mem _ (List.mem_cons_of_mem _
        (List.mem_cons_of_mem _ (List.mem_cons_self _ _))))
  · exact List.mem_append_right _
      (List.mem_cons_of_mem _ (List.mem_cons_self _ _))

theorem c5_strict_call_ordering :
    ∀ (event : S3Event) (iur : String → String → String → String)
      (t1 t2 t3 : Tm) (region role env : String)
      (sm : SageMakerClient) (ssm : SsmClient) (sqs : SqsClient)
      (tr : List Call),
      tr = handler_trace event iur t1 t2 t3 region role env sm ssm sqs →
      ((∀ cq cr, Call.createEndpointConfig cq cr ∈ tr →
          ∃ mq ma, List.Sublist
            [Call.createModel mq (Except.ok ma),
              Call.createEndpointConfig cq cr] tr) ∧
        (∀ epq er, Call.createEndpoint epq er ∈ tr →
          ∃ cq ca, List.Sublist
            [Call.createEndpointConfig cq (Except.ok ca),
              Call.createEndpoint epq er] tr) ∧
        (∀ cq ce, Call.createEndpointConfig cq (Except.error ce) ∈ tr →
          ∀ epq er, Call.createEndpoint epq er ∉ tr)) := by
  intro event iur t1 t2 t3 region role env sm ssm sqs tr htr
  obtain ⟨records⟩ := event
  rcases records with _ | ⟨r, rest⟩
  · subst htr
    simp [handler_trace, lambda_handler, decode_s3_record]
  · subst htr
    simp only [handler_trace, lambda_handler, decode_s3_record,
      create_sagemaker_model, create_endpoint_config,
      create_serverless_endpoint, get_parameter_store_value,
      trigger_model_evaluation, Except.map]
    split
    · refine ⟨fun cq cr h => ?_, fun epq er h => ?_,
        fun cq ce h epq er h2 => ?_⟩ <;> simp at h
    · split
      · refine ⟨fun cq cr h => ?_, fun epq er h => ?_,
          fun cq ce h epq er h2 => ?_⟩ <;> simp at h
      · split
        · refine ⟨fun cq cr h => ?_, fun epq er h => ?_,
            fun cq ce h epq er h2 => ?_⟩
          · simp at h
            obtain ⟨rfl, rfl⟩ := h
            exact ⟨_, _, List.Sublist.cons₂ _ (List.Sublist.cons _
              (List.Sublist.cons₂ _ (List.nil_sublist _)))⟩
          · simp at h
          · simp at h2
        · split
          · refine ⟨fun cq cr h => ?_, fun epq er h => ?_,
              fun cq ce h epq er h2 => ?_⟩
            · simp at h
              obtain ⟨rfl, rfl⟩ := h
              exact ⟨_, _, List.Sublist.cons₂ _ (List.Sublist.cons _
                (List.Sublist.cons₂ _ (List.nil_sublist _)))⟩
            · simp at h
              obtain ⟨rfl, rfl⟩ := h
              exact ⟨_, _, List.Sublist.cons _ (List.Sublist.cons _
                (List.Sublist.cons₂ _ (List.Sublist.cons₂ _
                  (List.nil_sublist _))))⟩
            · simp at h
          · split
            · refine ⟨fun cq cr h => ?_, fun epq er h => ?_,
                fun cq ce h epq er h2 => ?_⟩
              · simp at h
                obtain ⟨rfl, rfl⟩ := h
                exact ⟨_, _, List.Sublist.cons₂ _ (List.Sublist.cons _
                  (List.Sublist.cons₂ _ (List.nil_sublist _)))⟩
              · simp at h
                obtain ⟨rfl, rfl⟩ := h
                exact ⟨_, _, List.Sublist.cons _ (List.Sublist.cons _
                  (List.Sublist.cons₂ _ (List.Sublist.cons₂ _
                    (List.nil_sublist _))))⟩
              · simp at h
            · split
              · refine ⟨fun cq cr h => ?_, fun epq er h => ?_,
                  fun cq ce h epq er h2 => ?_⟩
                · simp at h
                  obtain ⟨rfl, rfl⟩ := h
                  exact ⟨_, _, List.Sublist.cons₂ _ (List.Sublist.cons _
                    (List.Sublist.cons₂ _ (List.nil_sublist _)))⟩
                · simp at h
                  obtain ⟨rfl, rfl⟩ := h
                  exact ⟨_, _, List.Sublist.cons _ (List.Sublist.cons _
                    (List.Sublist.cons₂ _ (List.Sublist.cons₂ _
                      (List.nil_sublist _))))⟩
                · simp at h
              · refine ⟨fun cq cr h => ?_, fun epq er h => ?_,
                  fun cq ce h epq er h2 => ?_⟩
                · simp at h
                  obtain ⟨rfl, rfl⟩ := h
                  exact ⟨_, _, List.Sublist.cons₂ _ (List.Sublist.cons _
                    (List.Sublist.cons₂ _ (List.nil_sublist _)))⟩
                · simp at h
                  obtain ⟨rfl, rfl⟩ := h
                  exact ⟨_, _, List.Sublist.cons _ (List.Sublist.cons _
                    (List.Sublist.cons₂ _ (List.Sublist.cons₂ _
                      (List.nil_sublist _))))⟩
                · simp at h

/-- Witness for C5: a concrete run whose create-endpoint-config call the
platform rejects; the config call is in the trace and no create-endpoint
call is. -/
theorem c5_witness :
    Call.createEndpointConfig
        ⟨"xgboost-serverless-epc-2024-01-01-00-00-00",
          [⟨"mlops", "xgboost-serverless-2024-01-01-00-00-00", ⟨4096, 1⟩⟩],
          some ⟨true, 20,
            "s3://bkt/xgboost-serverless-2024-01-01-00-00-00/",
            ["Input", "Output"]⟩,
          [⟨"Project", "MLOps"⟩, ⟨"Region", "eu-west-2"⟩]⟩
        (Except.error "rejected")
      ∈ handler_trace example_event (fun _ _ _ => "img")
        ⟨2024, 1, 1, 0, 0, 0⟩ ⟨2024, 1, 1, 0, 0, 0⟩ ⟨2024, 1, 1, 0, 0, 0⟩
        "eu-west-2" "r" "dev"
        (test_sagemaker_client (Except.ok "marn") (Except.error "rejected")
          (Except.ok "earn") (Except.ok []))
        (ok_ssm_client "bkt") (ok_sqs_client "url" "mid") ∧
    Call.createEndpoint ⟨"epn", "ecn", []⟩ (Except.ok "arn")
      ∉ handler_trace example_event (fun _ _ _ => "img")
        ⟨2024, 1, 1, 0, 0, 0⟩ ⟨2024, 1, 1, 0, 0, 0⟩ ⟨2024, 1, 1, 0, 0, 0⟩
        "eu-west-2" "r" "dev"
        (test_sagemaker_client (Except.ok "marn") (Except.error "rejected")
          (Except.ok "earn") (Except.ok []))
        (ok_ssm_client "bkt") (ok_sqs_client "url" "mid") :=
  ⟨by decide,
    (c5_strict_call_ordering example_event (fun _ _ _ => "img")
      ⟨2024, 1, 1, 0, 0, 0⟩ ⟨2024, 1, 1, 0, 0, 0⟩ ⟨2024, 1, 1, 0, 0, 0⟩
      "eu-west-2" "r" "dev"
      (test_sagemaker_client (Except.ok "marn") (Except.error "rejected")
        (Except.ok "earn") (Except.ok []))
      (ok_ssm_client "bkt") (ok_sqs_client "url" "mid") _ rfl).2.2
      ⟨"xgboost-serverless-epc-2024-01-01-00-00-00",
        [⟨"mlops", "xgboost-serverless-2024-01-01-00-00-00", ⟨4096, 1⟩⟩],
        some ⟨true, 20,
          "s3://bkt/xgboost-serverless-2024-01-01-00-00-00/",
          ["Input", "Output"]⟩,
        [⟨"Project", "MLOps"⟩, ⟨"Region", "eu-west-2"⟩]⟩
      "rejected" (by decide) ⟨"epn", "ecn", []⟩ (Except.ok "arn")⟩

end ModelDeployment
